import Mathlib

/-!
Shallow embedding of the `alloyinterface` Go package
(repository TTEC-Engage-Digital/alloy-interface).

The canonical client is the rate-limited, HTTP-delivery variant
(src/unnamed/part_001, second file): an `AlloyClient` holding a tracer
handle, a resolved `Config`, a trace-shutdown callback and a token-bucket
rate limiter from golang.org/x/time/rate.  The earlier variant
(src/alloyinterface/alloy.go) is embedded separately as `AlloyClientV0`
for its `StartTrace` operation.

External effects (the wall clock, the context request-id value, the
outcome of `rateLimiter.Wait`, of `http.NewRequestWithContext` and of
`client.Do`) are passed in explicitly through an `AddLogEnv` record;
the function bodies themselves are translated line by line from the Go
source.  The zerolog diagnostic logger is an optional side channel
(spec section 7) and carries no contractual behaviour, so it is not
modelled.  Go closures held in fields (the shutdown callbacks) are
embedded by the outcome they produce when invoked.
-/

/- zerolog severity levels: `type Level int8` with Debug = 0 up to
Panic = 5 (Trace = -1, NoLevel = 6, Disabled = 7). -/
namespace zerolog

def TraceLevel : Int := -1

def DebugLevel : Int := 0

def InfoLevel : Int := 1

def WarnLevel : Int := 2

def ErrorLevel : Int := 3

def FatalLevel : Int := 4

def PanicLevel : Int := 5

end zerolog

/-- Resolved settings, src/alloyinterface/config.go (five-field variant
used by the canonical client). -/
structure Config where
  TraceEndpoint : String
  LogEndpoint : String
  CertFilePath : String
  ServiceName : String
  TracerName : String
deriving DecidableEq

/-- `LoadConfig()` with no environment overrides: every `getEnv` call
falls back to its hardcoded default. -/
def defaultConfig : Config :=
  { TraceEndpoint := "localhost:4318"
    LogEndpoint := "http://localhost:9999"
    CertFilePath := "/etc/config/grafana-alloy.crt"
    ServiceName := "addi"
    TracerName := "addi-tracer" }

/-- Token-bucket limiter state from golang.org/x/time/rate.  `limit` is
the refill rate (`rate.Limit`, a float64 in Go; the program only ever
uses integral values), `burst` the capacity, `tokens` the current token
count (lazily refilled in Go; the refill arithmetic is time-based and
abstracted away, only consumption is tracked). -/
structure Limiter where
  limit : Int
  burst : Int
  tokens : Int
deriving DecidableEq

/-- `rate.NewLimiter(limit, burst)`: a fresh bucket, effectively full
after the first lazy refill. -/
def rateNewLimiter (limit burst : Int) : Limiter :=
  { limit := limit, burst := burst, tokens := burst }

/-- Outcome of `rateLimiter.Wait(ctx)`, determined externally by the
context and the wall clock: either the call is admitted, or it fails
(context cancellation/deadline, or a burst-0 bucket) with an error. -/
inductive WaitOutcome where
  | ok
  | failed (msg : String)
deriving DecidableEq

/-- `Limiter.Wait(ctx)`: on admission exactly one token is consumed; on
failure the error is returned and no token is consumed (the Go package
cancels the reservation, returning its token). -/
def Limiter.waitStep (rl : Limiter) (w : WaitOutcome) : Limiter × Option String :=
  match w with
  | .ok => ({ rl with tokens := rl.tokens - 1 }, none)
  | .failed e => (rl, some e)

/-- Opaque tracer handle, `otel.Tracer(name)`. -/
structure TracerHandle where
  name : String
deriving DecidableEq

/-- Observable span-pipeline events produced by a span operation. -/
inductive SpanEvent where
  | start (name : String)
  | setAttr (key value : String)
  | endSpan
deriving DecidableEq

/-- JSON values appearing in the log record built by `AddLog`.  `lvl`
embeds a zerolog level value whose serialized form is delegated to the
JSON encoder; `str` and `bool` are ordinary JSON strings and booleans. -/
inductive JValue where
  | str (s : String)
  | bool (b : Bool)
  | lvl (level : Int)
deriving DecidableEq

/-- HTTP response as observed by `AddLog` (only the status code is
inspected). -/
structure Response where
  StatusCode : Nat
deriving DecidableEq

/-- Outcome of `client.Do(req)`: a transport-level failure (Go returns a
nil response together with the error) or a received response. -/
inductive HttpOutcome where
  | transportError (msg : String)
  | response (status : Nat)
deriving DecidableEq

/-- The canonical client (src/unnamed/part_001, second file).  The
`rateLimiter` field is a Go pointer and may be nil; the zerolog `Logger`
field is a non-contractual diagnostic side channel and is not modelled.
`traceShutdown` holds the shutdown closure, embedded by the outcome it
produces when invoked (`none` inside = the callback returns no error). -/
structure AlloyClient where
  Tracer : Option TracerHandle
  cfg : Config
  traceShutdown : Option (Option String)
  rateLimiter : Option Limiter
deriving DecidableEq

/-- External effects observed during one `AddLog` call. -/
structure AddLogEnv where
  /-- `time.Now().Format(time.RFC3339)` at call time. -/
  now : String
  /-- `ctx.Value("request_id")`; `none` embeds a nil context value. -/
  requestId : Option String
  /-- outcome of `ac.rateLimiter.Wait(ctx)`. -/
  waitOutcome : WaitOutcome
  /-- error outcome of `http.NewRequestWithContext` (URL parse). -/
  reqCreateErr : Option String
  /-- outcome of `client.Do(req)`. -/
  http : HttpOutcome
deriving DecidableEq

/-- Everything one `AddLog` call returns or observably does: the updated
client state, the `(resp, err)` pair returned to the caller, the log
record and URL when they were built, and whether `client.Do` ran. -/
structure AddLogOut where
  client : AlloyClient
  resp : Option Response
  err : Option String
  record : Option (List (String × JValue))
  url : Option String
  networkAttempted : Bool
deriving DecidableEq

/-- `func (ac *AlloyClient) AddLog(ctx, level, msg) (*http.Response, error)`
(src/unnamed/part_001 lines 219-301), translated line by line.  The
result is `none` exactly when the Go code would dereference a nil
`rateLimiter` pointer (a panic, not a return). -/
def AlloyClient.AddLog (ac : AlloyClient) (env : AddLogEnv) (level : Int)
    (msg : String) : Option AddLogOut :=
  match ac.rateLimiter with
  | none => none
  | some rl0 =>
    match rl0.waitStep env.waitOutcome with
    | (rl, some e) =>
      some { client := { ac with rateLimiter := some rl }, resp := none
             err := some ("rate limit exceeded: " ++ e)
             record := none, url := none, networkAttempted := false }
    | (rl, none) =>
      let ac1 := { ac with rateLimiter := some rl }
      if level < zerolog.DebugLevel ∨ zerolog.PanicLevel < level then
        some { client := ac1, resp := none, err := some "invalid log level"
               record := none, url := none, networkAttempted := false }
      else if msg.length = 0 then
        some { client := ac1, resp := none
               err := some "log message cannot be empty"
               record := none, url := none, networkAttempted := false }
      else
        let requestID : String :=
          match env.requestId with
          | none => "unknown"
          | some v => v
        let logRecord : List (String × JValue) :=
          [("timestamp", .str env.now),
           ("level", .lvl level),
           ("message", .str msg),
           ("is_secret", .str "false"),
           ("service_name", .str ac.cfg.ServiceName),
           ("request_id", .str requestID)]
        match env.reqCreateErr with
        | some e =>
          some { client := ac1, resp := none
                 err := some ("failed to create request: " ++ e)
                 record := some logRecord, url := none
                 networkAttempted := false }
        | none =>
          let url := ac.cfg.LogEndpoint ++ "/loki/api/v1/raw"
          match env.http with
          | .transportError e =>
            some { client := ac1, resp := none
                   err := some ("failed to send request: " ++ e)
                   record := some logRecord, url := some url
                   networkAttempted := true }
          | .response s =>
            if 300 ≤ s then
              some { client := ac1, resp := some { StatusCode := s }
                     err := some
                       ("failed to send log record, status code: " ++ toString s)
                     record := some logRecord, url := some url
                     networkAttempted := true }
            else
              some { client := ac1, resp := some { StatusCode := s }
                     err := none
                     record := some logRecord, url := some url
                     networkAttempted := true }

/-- private `startTrace` (src/unnamed/part_001 lines 381-387): nil-tracer
check, then `Tracer.Start`, returning the span handle and its pipeline
event. -/
def AlloyClient.startTrace (ac : AlloyClient) (name : String) :
    Except String TracerHandle × List SpanEvent :=
  match ac.Tracer with
  | none => (.error "tracer not initialized", [])
  | some _ => (.ok { name := name }, [.start name])

/-- `func (ac *AlloyClient) AddSpan(ctx, tracerName, title, msgBody) error`
(src/unnamed/part_001 lines 183-217): nil-tracer check, empty-name check,
start a span via `startTrace`, set the `(title, msgBody)` string
attribute, end the span. -/
def AlloyClient.AddSpan (ac : AlloyClient) (tracerName title msgBody : String) :
    Except String Unit × List SpanEvent :=
  match ac.Tracer with
  | none => (.error "tracer not initialized", [])
  | some _ =>
    if tracerName = "" then
      (.error "tracer name cannot be empty", [])
    else
      match ac.startTrace tracerName with
      | (.error e, evs) => (.error ("failed to start tracing: " ++ e), evs)
      | (.ok _, evs) => (.ok (), evs ++ [.setAttr title msgBody, .endSpan])

/-- Result of `Shutdown`: the client state afterwards, the returned
error, and how many times the trace-shutdown callback ran during the
call. -/
structure ShutdownOut where
  client : AlloyClient
  err : Option String
  callbackCalls : Nat
deriving DecidableEq

/-- `func (ac *AlloyClient) Shutdown(ctx) error` (src/unnamed/part_001
lines 316-329): invoke the trace-shutdown callback when present, collect
its failure into `shutdownErrs`, and aggregate.  The Go `fmt.Errorf`
rendering of the error slice is approximated by the list `toString`. -/
def AlloyClient.Shutdown (ac : AlloyClient) : ShutdownOut :=
  let step : List String × Nat :=
    match ac.traceShutdown with
    | none => ([], 0)
    | some cbResult =>
      match cbResult with
      | none => ([], 1)
      | some e => (["failed to shutdown tracer: " ++ e], 1)
  if step.1.length > 0 then
    { client := ac, err := some ("shutdown errors: " ++ toString step.1)
      callbackCalls := step.2 }
  else
    { client := ac, err := none, callbackCalls := step.2 }

/-- `func (ac *AlloyClient) SetRateLimit(limit rate.Limit, burst int)`
(src/unnamed/part_001 lines 303-314): install a fresh limiter when the
pointer is nil, then apply `SetLimit`/`SetBurst` under their positivity
guards. -/
def AlloyClient.SetRateLimit (ac : AlloyClient) (limit burst : Int) : AlloyClient :=
  let rl0 : Limiter :=
    match ac.rateLimiter with
    | none => rateNewLimiter limit burst
    | some rl => rl
  let rl1 := if limit > 0 then { rl0 with limit := limit } else rl0
  let rl2 := if burst > 0 then { rl1 with burst := burst } else rl1
  { ac with rateLimiter := some rl2 }

/-- Settings used by src/alloyinterface/alloy.go (that variant reads
`cfg.Endpoint`, `cfg.ServiceName` and `cfg.TracerName`). -/
structure ConfigV0 where
  Endpoint : String
  ServiceName : String
  TracerName : String
deriving DecidableEq

/-- The earlier client variant (src/alloyinterface/alloy.go): tracer
handle, meter (never initialized), config and the two shutdown
callbacks, each embedded by its invocation outcome. -/
structure AlloyClientV0 where
  Tracer : Option TracerHandle
  Meter : Option Unit
  cfg : ConfigV0
  traceShutdown : Option (Option String)
  metricShutdown : Option (Option String)
deriving DecidableEq

/-- `func (ac *AlloyClient) StartTrace(ctx, name)` (src/alloyinterface/
alloy.go lines 47-53): nil-tracer check, then start a span and return
its handle to the caller (the caller owns ending it, so no end event is
produced here). -/
def AlloyClientV0.StartTrace (ac : AlloyClientV0) (name : String) :
    Except String TracerHandle × List SpanEvent :=
  match ac.Tracer with
  | none => (.error "tracer not initialized", [])
  | some _ => (.ok { name := name }, [.start name])

/-- A client as produced by `NewAlloyClient` with default configuration:
live tracer, default config, a trace-shutdown callback that succeeds,
and the default `rate.NewLimiter(10, 20)`. -/
def testClient : AlloyClient :=
  { Tracer := some { name := "addi-tracer" }
    cfg := defaultConfig
    traceShutdown := some none
    rateLimiter := some (rateNewLimiter 10 20) }

/-- An `AddLog` environment with the given wait outcome, HTTP outcome
and context request-id; the wall clock reads a fixed RFC3339 instant and
request creation succeeds. -/
def mkEnv (w : WaitOutcome) (h : HttpOutcome) (rid : Option String) : AddLogEnv :=
  { now := "2026-01-01T00:00:00Z", requestId := rid
    waitOutcome := w, reqCreateErr := none, http := h }

/-- A client as above but with the tracer handle absent. -/
def nilTracerClient : AlloyClient :=
  { Tracer := none
    cfg := defaultConfig
    traceShutdown := some none
    rateLimiter := some (rateNewLimiter 10 20) }

/-- An alloy.go-variant client whose tracer handle is absent. -/
def nilTracerClientV0 : AlloyClientV0 :=
  { Tracer := none
    Meter := none
    cfg := { Endpoint := "localhost:4318", ServiceName := "addi"
             TracerName := "addi-tracer" }
    traceShutdown := none
    metricShutdown := none }

/-- A client whose rate limiter was replaced by `rate.NewLimiter(0, 0)`. -/
def zeroLimiterClient : AlloyClient :=
  { Tracer := some { name := "addi-tracer" }
    cfg := defaultConfig
    traceShutdown := some none
    rateLimiter := some (rateNewLimiter 0 0) }

/-- A client whose trace-shutdown callback fails when invoked. -/
def failingShutdownClient : AlloyClient :=
  { Tracer := some { name := "addi-tracer" }
    cfg := defaultConfig
    traceShutdown := some (some "tracer shutdown failed")
    rateLimiter := some (rateNewLimiter 10 20) }

/-- A client whose pipeline was never initialized: no shutdown callback. -/
def uninitializedClient : AlloyClient :=
  { Tracer := none
    cfg := defaultConfig
    traceShutdown := none
    rateLimiter := some (rateNewLimiter 10 20) }

/-- A client whose rate limiter pointer is nil. -/
def nilLimiterClient : AlloyClient :=
  { Tracer := some { name := "addi-tracer" }
    cfg := defaultConfig
    traceShutdown := some none
    rateLimiter := some (rateNewLimiter 10 20) }

/-- C1 counterexample: calling `AddLog` at the invalid level 99 on a
client whose limiter holds 20 tokens, with an admitting context, does
return the validation error, but the rate limiter has already been
interacted with: one token was consumed, so its state (19 tokens) is not
the input state (20 tokens), refuting the claim that validation happens
before any rate-limiter interaction with no token consumed. -/
theorem c1_validation_not_before_limiter_cex :
    (testClient.AddLog (mkEnv .ok (.response 200) none) 99 "x").map
        (fun o => (o.err, o.client.rateLimiter)) =
      some (some "invalid log level",
            some { limit := 10, burst := 20, tokens := 19 }) ∧
    testClient.rateLimiter = some { limit := 10, burst := 20, tokens := 20 } ∧
    ({ limit := 10, burst := 20, tokens := 19 } : Limiter) ≠
      { limit := 10, burst := 20, tokens := 20 } := by
  exact ⟨rfl, rfl, by decide⟩

/-- C1 (amended): when the rate limiter admits the call, an `AddLog`
call with an out-of-range level or an empty message returns the
ValidationError before any network interaction — no record is built, no
request attempted — but only after the rate-limiter wait, which has
already consumed one token. -/
theorem addLog_validation_after_admission
    (ac : AlloyClient) (rl : Limiter) (env : AddLogEnv) (level : Int) (msg : String)
    (hrl : ac.rateLimiter = some rl) (hw : env.waitOutcome = .ok)
    (hbad : level < zerolog.DebugLevel ∨ zerolog.PanicLevel < level ∨ msg.length = 0) :
    ac.AddLog env level msg =
      some { client := { ac with rateLimiter := some { rl with tokens := rl.tokens - 1 } }
             resp := none
             err := some (if level < zerolog.DebugLevel ∨ zerolog.PanicLevel < level
                          then "invalid log level" else "log message cannot be empty")
             record := none, url := none, networkAttempted := false } := by
  by_cases hlvl : level < zerolog.DebugLevel ∨ zerolog.PanicLevel < level
  · simp [AlloyClient.AddLog, hrl, hw, Limiter.waitStep, hlvl]
  · have hmsg : msg.length = 0 := by tauto
    simp [AlloyClient.AddLog, hrl, hw, Limiter.waitStep, hlvl, hmsg]

/-- Witness for the amended C1 at level 99, message "x". -/
theorem addLog_validation_after_admission_witness :
    testClient.AddLog (mkEnv .ok (.response 200) none) 99 "x" =
      some { client := { testClient with
                           rateLimiter := some { limit := 10, burst := 20, tokens := 19 } }
             resp := none
             err := some "invalid log level"
             record := none, url := none, networkAttempted := false } := by
  have h := addLog_validation_after_admission testClient (rateNewLimiter 10 20)
      (mkEnv .ok (.response 200) none) 99 "x" rfl rfl
      (Or.inr (Or.inl (by decide)))
  simpa [rateNewLimiter, zerolog.DebugLevel, zerolog.PanicLevel] using h

/-- C2 counterexample: on a successful `AddLog`, the is_secret field of
the POSTed record is the JSON string "false", which is not the JSON
boolean false the claim states. -/
theorem c2_is_secret_not_boolean_cex :
    ((testClient.AddLog (mkEnv .ok (.response 200) (some "abc-123"))
          zerolog.InfoLevel "hello").bind
        (fun o => o.record)).map (List.lookup "is_secret") =
      some (some (JValue.str "false")) ∧
    JValue.str "false" ≠ JValue.bool false := by
  exact ⟨rfl, by decide⟩

/-- C2 (amended): every successful `AddLog` call POSTs a record with
exactly the six logical fields: the RFC3339 timestamp captured at call
time, the severity level, the message, an is_secret marker that is the
JSON string "false", the service name from Config, and a request_id that
is the request-correlation value from the call context, or the literal
"unknown" when the context carries none. -/
theorem addLog_success_record
    (ac : AlloyClient) (rl : Limiter) (env : AddLogEnv) (level : Int)
    (msg : String) (s : Nat)
    (hrl : ac.rateLimiter = some rl) (hw : env.waitOutcome = .ok)
    (hlo : zerolog.DebugLevel ≤ level) (hhi : level ≤ zerolog.PanicLevel)
    (hmsg : msg.length ≠ 0) (hreq : env.reqCreateErr = none)
    (hhttp : env.http = .response s) (hs : s < 300) :
    ac.AddLog env level msg =
      some { client := { ac with rateLimiter := some { rl with tokens := rl.tokens - 1 } }
             resp := some { StatusCode := s }
             err := none
             record := some [("timestamp", .str env.now), ("level", .lvl level),
                             ("message", .str msg), ("is_secret", .str "false"),
                             ("service_name", .str ac.cfg.ServiceName),
                             ("request_id", .str (match env.requestId with
                                                  | none => "unknown"
                                                  | some v => v))]
             url := some (ac.cfg.LogEndpoint ++ "/loki/api/v1/raw")
             networkAttempted := true } := by
  have hlvl : ¬(level < zerolog.DebugLevel ∨ zerolog.PanicLevel < level) := by
    unfold zerolog.DebugLevel zerolog.PanicLevel at *
    omega
  simp [AlloyClient.AddLog, hrl, hw, Limiter.waitStep, hlvl, hmsg, hreq, hhttp,
        Nat.not_le.mpr hs]

/-- Witness for the amended C2: info-level "hello" with correlation id
"abc-123" against a 200 endpoint. -/
theorem addLog_success_record_witness :
    testClient.AddLog (mkEnv .ok (.response 200) (some "abc-123"))
        zerolog.InfoLevel "hello" =
      some { client := { testClient with
                           rateLimiter := some { limit := 10, burst := 20, tokens := 19 } }
             resp := some { StatusCode := 200 }
             err := none
             record := some [("timestamp", .str "2026-01-01T00:00:00Z"),
                             ("level", .lvl zerolog.InfoLevel),
                             ("message", .str "hello"), ("is_secret", .str "false"),
                             ("service_name", .str "addi"),
                             ("request_id", .str "abc-123")]
             url := some "http://localhost:9999/loki/api/v1/raw"
             networkAttempted := true } := by
  have h := addLog_success_record testClient (rateNewLimiter 10 20)
      (mkEnv .ok (.response 200) (some "abc-123")) zerolog.InfoLevel "hello" 200
      rfl rfl (by decide) (by decide) (by decide) rfl rfl (by decide)
  simpa [rateNewLimiter, mkEnv, testClient, defaultConfig] using h

/-- C3: on a client whose tracer handle is absent, `StartTrace`
(alloy.go variant) and the four-argument `AddSpan` both return the
tracer-not-initialized error as an ordinary error value (no unhandled
fault: the functions are total), and no span-pipeline event is
produced. -/
theorem span_ops_nil_tracer_not_initialized
    (ac0 : AlloyClientV0) (ac : AlloyClient)
    (name tracerName title msgBody : String)
    (h0 : ac0.Tracer = none) (h : ac.Tracer = none) :
    ac0.StartTrace name = (.error "tracer not initialized", []) ∧
    ac.AddSpan tracerName title msgBody = (.error "tracer not initialized", []) := by
  constructor
  · simp [AlloyClientV0.StartTrace, h0]
  · simp [AlloyClient.AddSpan, h]

/-- Witness for C3 on concrete tracerless clients. -/
theorem span_ops_nil_tracer_not_initialized_witness :
    nilTracerClientV0.StartTrace "op" = (.error "tracer not initialized", []) ∧
    nilTracerClient.AddSpan "t" "k" "v" = (.error "tracer not initialized", []) :=
  span_ops_nil_tracer_not_initialized nilTracerClientV0 nilTracerClient
    "op" "t" "k" "v" rfl rfl

/-- C4: once delivery is attempted, a transport-level failure yields an
error and no response; a received response with status at least 300
yields both the error and that response; a response with status below
300 yields the response and no error. -/
theorem addLog_delivery_outcomes
    (ac : AlloyClient) (rl : Limiter) (env : AddLogEnv) (level : Int) (msg : String)
    (hrl : ac.rateLimiter = some rl) (hw : env.waitOutcome = .ok)
    (hlo : zerolog.DebugLevel ≤ level) (hhi : level ≤ zerolog.PanicLevel)
    (hmsg : msg.length ≠ 0) (hreq : env.reqCreateErr = none) :
    (∀ e, env.http = .transportError e →
      (ac.AddLog env level msg).map (fun o => (o.resp, o.err, o.networkAttempted)) =
        some (none, some ("failed to send request: " ++ e), true)) ∧
    (∀ s, env.http = .response s → 300 ≤ s →
      (ac.AddLog env level msg).map (fun o => (o.resp, o.err, o.networkAttempted)) =
        some (some { StatusCode := s },
              some ("failed to send log record, status code: " ++ toString s),
              true)) ∧
    (∀ s, env.http = .response s → s < 300 →
      (ac.AddLog env level msg).map (fun o => (o.resp, o.err, o.networkAttempted)) =
        some (some { StatusCode := s }, none, true)) := by
  have hlvl : ¬(level < zerolog.DebugLevel ∨ zerolog.PanicLevel < level) := by
    unfold zerolog.DebugLevel zerolog.PanicLevel at *
    omega
  refine ⟨fun e he => ?_, fun s hs h3 => ?_, fun s hs hlt => ?_⟩
  · simp [AlloyClient.AddLog, hrl, hw, Limiter.waitStep, hlvl, hmsg, hreq, he]
  · simp [AlloyClient.AddLog, hrl, hw, Limiter.waitStep, hlvl, hmsg, hreq, hs, h3]
  · simp [AlloyClient.AddLog, hrl, hw, Limiter.waitStep, hlvl, hmsg, hreq, hs,
          Nat.not_le.mpr hlt]

/-- Witness for C4: the claim scenario of a log endpoint answering 400. -/
theorem addLog_delivery_outcomes_witness :
    (testClient.AddLog (mkEnv .ok (.response 400) (some "456"))
        zerolog.InfoLevel "test non-200").map
        (fun o => (o.resp, o.err, o.networkAttempted)) =
      some (some { StatusCode := 400 },
            some "failed to send log record, status code: 400", true) := by
  have h := (addLog_delivery_outcomes testClient (rateNewLimiter 10 20)
      (mkEnv .ok (.response 400) (some "456")) zerolog.InfoLevel "test non-200"
      rfl rfl (by decide) (by decide) (by decide) rfl).2.1 400 rfl (by decide)
  simpa using h

/-- C5: when the rate-limiter wait fails (cancellation, deadline, or a
zero-capacity bucket), `AddLog` returns the rate-limit-exceeded error,
the limiter state is unchanged (no token consumed), and no record is
built and no network request attempted. -/
theorem addLog_rate_limit_exceeded
    (ac : AlloyClient) (rl : Limiter) (env : AddLogEnv) (level : Int)
    (msg : String) (e : String)
    (hrl : ac.rateLimiter = some rl) (hw : env.waitOutcome = .failed e) :
    ac.AddLog env level msg =
      some { client := ac, resp := none
             err := some ("rate limit exceeded: " ++ e)
             record := none, url := none, networkAttempted := false } := by
  obtain ⟨T, c, ts, rlim⟩ := ac
  simp only [AlloyClient.rateLimiter] at hrl
  subst hrl
  simp [AlloyClient.AddLog, hw, Limiter.waitStep]

/-- Witness for C5: the claim scenario, capacity 0 and refill rate 0
with an immediately-cancelled context. -/
theorem addLog_rate_limit_exceeded_witness :
    zeroLimiterClient.AddLog
        (mkEnv (.failed "context canceled") (.response 200) none)
        zerolog.InfoLevel "this should be rate-limited" =
      some { client := zeroLimiterClient, resp := none
             err := some "rate limit exceeded: context canceled"
             record := none, url := none, networkAttempted := false } :=
  addLog_rate_limit_exceeded zeroLimiterClient (rateNewLimiter 0 0)
    (mkEnv (.failed "context canceled") (.response 200) none)
    zerolog.InfoLevel "this should be rate-limited" "context canceled" rfl rfl

/-- C6: on a client with an existing rate limiter, `SetRateLimit` sets
the refill rate when the rate argument is positive and the capacity when
the burst argument is positive, leaving the corresponding setting
unchanged otherwise; in particular `SetRateLimit(5, 15)` yields refill
rate 5 and capacity 15. -/
theorem setRateLimit_existing_limiter
    (ac : AlloyClient) (rl : Limiter) (limit burst : Int)
    (hrl : ac.rateLimiter = some rl) :
    (ac.SetRateLimit limit burst).rateLimiter =
      some { rl with limit := if 0 < limit then limit else rl.limit
                     burst := if 0 < burst then burst else rl.burst } ∧
    (ac.SetRateLimit 5 15).rateLimiter = some { rl with limit := 5, burst := 15 } := by
  constructor
  · by_cases hl : 0 < limit <;> by_cases hb : 0 < burst <;>
      simp [AlloyClient.SetRateLimit, hrl, hl, hb]
  · simp [AlloyClient.SetRateLimit, hrl]

/-- Witness for C6: `SetRateLimit(5, 15)` on the default client. -/
theorem setRateLimit_existing_limiter_witness :
    (testClient.SetRateLimit 5 15).rateLimiter =
      some { limit := 5, burst := 15, tokens := 20 } := by
  have h := (setRateLimit_existing_limiter testClient (rateNewLimiter 10 20)
      5 15 rfl).2
  simpa [rateNewLimiter] using h

/-- C7: `Shutdown` on a client with no shutdown callback returns no
error, leaves the client untouched and invokes no callback; when the
callback is present and fails, `Shutdown` returns the aggregated error
collecting that failure. -/
theorem shutdown_callback_behavior (ac : AlloyClient) :
    (ac.traceShutdown = none →
      ac.Shutdown = { client := ac, err := none, callbackCalls := 0 }) ∧
    (∀ e, ac.traceShutdown = some (some e) →
      ac.Shutdown =
        { client := ac
          err := some ("shutdown errors: " ++
                        toString ["failed to shutdown tracer: " ++ e])
          callbackCalls := 1 }) := by
  constructor
  · intro h
    simp [AlloyClient.Shutdown, h]
  · intro e h
    simp [AlloyClient.Shutdown, h]

/-- Witness for C7 on a never-initialized client and on a client whose
callback fails. -/
theorem shutdown_callback_behavior_witness :
    uninitializedClient.Shutdown =
      { client := uninitializedClient, err := none, callbackCalls := 0 } ∧
    failingShutdownClient.Shutdown =
      { client := failingShutdownClient
        err := some ("shutdown errors: " ++
                      toString ["failed to shutdown tracer: tracer shutdown failed"])
        callbackCalls := 1 } :=
  ⟨(shutdown_callback_behavior uninitializedClient).1 rfl,
   (shutdown_callback_behavior failingShutdownClient).2 "tracer shutdown failed" rfl⟩

/-- C8: `Shutdown` has no double-invocation guard: it leaves every field
of the client unchanged, so whenever the shutdown callback is present, a
second `Shutdown` on the returned client state invokes the callback
again (once per call) instead of being a no-op. -/
theorem shutdown_no_double_invocation_guard (ac : AlloyClient) :
    ac.Shutdown.client = ac ∧
    (∀ r, ac.traceShutdown = some r →
      ac.Shutdown.callbackCalls = 1 ∧
      ac.Shutdown.client.Shutdown.callbackCalls = 1) := by
  have hclient : ac.Shutdown.client = ac := by
    cases hb : ac.traceShutdown with
    | none => simp [AlloyClient.Shutdown, hb]
    | some r => cases r <;> simp [AlloyClient.Shutdown, hb]
  refine ⟨hclient, fun r hr => ?_⟩
  have hcalls : ac.Shutdown.callbackCalls = 1 := by
    cases r <;> simp [AlloyClient.Shutdown, hr]
  exact ⟨hcalls, by rw [hclient]; exact hcalls⟩

/-- Witness for C8 on the default client, whose callback is present. -/
theorem shutdown_no_double_invocation_guard_witness :
    testClient.Shutdown.client = testClient ∧
    testClient.Shutdown.callbackCalls = 1 ∧
    testClient.Shutdown.client.Shutdown.callbackCalls = 1 := by
  obtain ⟨h1, h2⟩ := shutdown_no_double_invocation_guard testClient
  exact ⟨h1, (h2 none rfl).1, (h2 none rfl).2⟩

/-- C9: on a client with an initialized tracer, the four-argument
`AddSpan` with an empty tracer name returns the error
"tracer name cannot be empty" and produces no span-pipeline event: no
span is started or ended.  (This validation appears nowhere in the spec
contract for AddSpan.) -/
theorem addSpan_empty_tracer_name
    (ac : AlloyClient) (t : TracerHandle) (title msgBody : String)
    (h : ac.Tracer = some t) :
    ac.AddSpan "" title msgBody = (.error "tracer name cannot be empty", []) := by
  simp [AlloyClient.AddSpan, h]

/-- Witness for C9 on the default client. -/
theorem addSpan_empty_tracer_name_witness :
    testClient.AddSpan "" "title" "message" =
      (.error "tracer name cannot be empty", []) :=
  addSpan_empty_tracer_name testClient { name := "addi-tracer" }
    "title" "message" rfl

/-- C10: on a client whose rate limiter is nil, `SetRateLimit` installs
a freshly constructed limiter whose refill rate equals the rate argument
and whose capacity equals the burst argument, for every argument value
including zero and negative ones: the positivity guard does not apply on
this first-configuration path. -/
theorem setRateLimit_nil_installs_fresh
    (ac : AlloyClient) (limit burst : Int)
    (hrl : ac.rateLimiter = none) :
    ((ac.SetRateLimit limit burst).rateLimiter).map Limiter.limit = some limit ∧
    ((ac.SetRateLimit limit burst).rateLimiter).map Limiter.burst = some burst := by
  by_cases hl : 0 < limit <;> by_cases hb : 0 < burst <;>
    simp [AlloyClient.SetRateLimit, rateNewLimiter, hrl, hl, hb]

/-- Witness for C10 with rate 0 and negative burst on a nil-limiter
client. -/
theorem setRateLimit_nil_installs_fresh_witness :
    ((({ nilLimiterClient with rateLimiter := none } :
          AlloyClient).SetRateLimit 0 (-3)).rateLimiter).map Limiter.limit =
        some 0 ∧
    ((({ nilLimiterClient with rateLimiter := none } :
          AlloyClient).SetRateLimit 0 (-3)).rateLimiter).map Limiter.burst =
        some (-3) :=
  setRateLimit_nil_installs_fresh
    { nilLimiterClient with rateLimiter := none } 0 (-3) rfl
